import Mathlib

/-!
Verification of the ai-breakout simulation core.

Shallow embedding of the TypeScript sources `src/lib/physics.ts`,
`src/lib/powerups.ts` and `src/lib/gameEngine.ts` (which also contains the
`ai.ts` and `types.ts` modules).

Two layers are used:

* namespace `Phys` — an exact real-valued embedding of the continuous
  collision math; `Math.sqrt`, `Math.sin`, `Math.cos` become `Real.sqrt`,
  `Real.sin`, `Real.cos`.

* namespace `Eng` — an executable rational-valued embedding of the game
  engine tick, used for the state-machine claims, so that concrete runs can
  be checked by `decide`.  Every call to `Math.random()` reads a value from
  an oracle stream `rnd : ℕ → ℚ`; the finitely many places where the source
  computes irrational numbers (the normalised brick-collision normal, the
  sine/cosine/speed of the paddle bounce, and the extra-ball launch
  direction) also read their values from that oracle stream, with the exact
  real-valued formulas given in the `Phys` layer.  All theorems about the
  `Eng` layer quantify over every oracle stream, so they cover the actual
  floating-point values as a special case.

The engine's event callback is modelled by accumulating the emitted events
in a list, in emission order.
-/

/-- Side of the arena: the human player or the AI opponent. -/
inductive Side
  | human
  | ai
deriving DecidableEq, Repr

/-- The three power-up variants, in the declaration order of the source
enumeration `PowerUpType` (expand_paddle, extra_ball, slow_ball). -/
inductive PowerUpType
  | expandPaddle
  | extraBall
  | slowBall
deriving DecidableEq, Repr

/-- The winner reported by a game-over event: a side, or a tie. -/
inductive Winner
  | human
  | ai
  | tie
deriving DecidableEq, Repr

/-- Game events handed to the registered event callback.  `score` and
`life_lost` carry the new total, `time_update` the whole seconds left. -/
inductive GameEvent
  | score (player : Side) (value : ℤ)
  | life_lost (player : Side) (value : ℤ)
  | power_up (player : Side) (ptype : PowerUpType)
  | game_over (winner : Winner)
  | time_update (value : ℤ)
deriving DecidableEq, Repr

namespace Phys

/-- A 2-D vector over the reals. -/
structure Vec where
  x : ℝ
  y : ℝ

/-- The rectangle data of a `GameObject` (position is the top-left corner).
The `active` flag is irrelevant to the collision math and is omitted. -/
structure GameObj where
  position : Vec
  width : ℝ
  height : ℝ

/-- The ball data read by the collision math.  The remaining source fields
(`speed`, `width`, `height`, `active`) are never read by these functions. -/
structure Ball where
  position : Vec
  velocity : Vec
  radius : ℝ

/-- The paddle data read by `handlePaddleCollision`. -/
structure Paddle where
  position : Vec
  width : ℝ

/-- Closest point of the rectangle `o` to the point `p`: each axis is
independently clamped into the rectangle's span.  This is the formula that
appears verbatim in both `checkCollision` and `handleBrickCollision`
(physics.ts lines 6-7 and 35-36). -/
def closestPoint (p : Vec) (o : GameObj) : Vec :=
  ⟨max o.position.x (min p.x (o.position.x + o.width)),
   max o.position.y (min p.y (o.position.y + o.height))⟩

/-- Squared Euclidean distance between two points. -/
def distSq (a b : Vec) : ℝ :=
  (a.x - b.x) * (a.x - b.x) + (a.y - b.y) * (a.y - b.y)

/-- Euclidean distance between two points. -/
noncomputable def euclidDist (a b : Vec) : ℝ :=
  Real.sqrt (distSq a b)

/-- Membership of a point in the (closed) rectangle `o`. -/
def memRect (o : GameObj) (p : Vec) : Prop :=
  o.position.x ≤ p.x ∧ p.x ≤ o.position.x + o.width ∧
  o.position.y ≤ p.y ∧ p.y ≤ o.position.y + o.height

/-- physics.ts `checkCollision`: true iff the squared distance from the
circle's center to the closest point of the rectangle is strictly less than
`radius²`.  The boolean return value of the source is modelled as a `Prop`. -/
def checkCollision (ball : Ball) (object : GameObj) : Prop :=
  distSq ball.position (closestPoint ball.position object) <
    ball.radius * ball.radius

/-- Euclidean magnitude of a velocity vector, as computed by the source:
`Math.sqrt(v.x * v.x + v.y * v.y)`. -/
noncomputable def speedOf (v : Vec) : ℝ :=
  Real.sqrt (v.x * v.x + v.y * v.y)

/-- physics.ts `handlePaddleCollision`: the new velocity assigned to the
ball.  `hitPosition = (ballX − paddleX)/paddleWidth`,
`bounceAngle = (hitPosition − 0.5) · π · 0.7`, and the new velocity is
`(sin bounceAngle, −cos bounceAngle)` scaled by the old velocity magnitude. -/
noncomputable def handlePaddleCollision (ball : Ball) (paddle : Paddle) : Vec :=
  let hitPosition := (ball.position.x - paddle.position.x) / paddle.width
  let bounceAngle := (hitPosition - 1/2) * Real.pi * (7/10)
  let speed := speedOf ball.velocity
  ⟨Real.sin bounceAngle * speed, -(Real.cos bounceAngle * speed)⟩

/-- The collision normal of `handleBrickCollision` before normalisation:
the vector from the closest point of the brick to the ball's center
(physics.ts lines 35-40). -/
def brickNormal (ball : Ball) (brick : GameObj) : Vec :=
  ⟨ball.position.x - (closestPoint ball.position brick).x,
   ball.position.y - (closestPoint ball.position brick).y⟩

open Classical in
/-- physics.ts `handleBrickCollision`: reflect the velocity across the
normalised collision normal, `v − 2(v·n)n`, then add the jitter
`(r − 0.5) · 0.05` on each axis, where `r1`, `r2` are the two
`Math.random()` draws.  When the normal has zero magnitude the source
divides by zero and produces NaN velocity components; that undefined case
is modelled as `none`. -/
noncomputable def handleBrickCollision (ball : Ball) (brick : GameObj) (r1 r2 : ℝ) :
    Option Vec :=
  let n := brickNormal ball brick
  let magnitude := Real.sqrt (n.x * n.x + n.y * n.y)
  if magnitude = 0 then none
  else
    let normalizedX := n.x / magnitude
    let normalizedY := n.y / magnitude
    let dotProduct := ball.velocity.x * normalizedX + ball.velocity.y * normalizedY
    some ⟨ball.velocity.x - 2 * dotProduct * normalizedX + (r1 - 1/2) * (1/20),
          ball.velocity.y - 2 * dotProduct * normalizedY + (r2 - 1/2) * (1/20)⟩

open Classical in
/-- JavaScript `Math.sign`. -/
noncomputable def jsSign (x : ℝ) : ℝ :=
  if 0 < x then 1 else if x < 0 then -1 else 0

open Classical in
/-- JavaScript `x || d` for numbers: the default `d` replaces a zero
(falsy) value. -/
noncomputable def jsOr (x d : ℝ) : ℝ :=
  if x = 0 then d else x

/-- powerups.ts lines 91-98: the velocity given to the ball cloned by an
ExtraBall catch.  `angle` is the random launch angle
(`Math.random() · π/2 − π/4`); the components are
`sin angle · Math.sign(source.velocity.x || 1)` and
`cos angle · Math.sign(source.velocity.y || (player = human ? −1 : 1))`. -/
noncomputable def extraBallVelocity (sourceVel : Vec) (player : Side) (angle : ℝ) : Vec :=
  ⟨Real.sin angle * jsSign (jsOr sourceVel.x 1),
   Real.cos angle * jsSign (jsOr sourceVel.y (if player = Side.human then -1 else 1))⟩

end Phys

namespace Eng

/-- A 2-D vector over the rationals. -/
structure Vec where
  x : ℚ
  y : ℚ
deriving DecidableEq, Repr

/-- Rectangle data of a `GameObject` as read by `checkCollision`. -/
structure GameObj where
  position : Vec
  width : ℚ
  height : ℚ
deriving DecidableEq, Repr

/-- types.ts `Ball`. -/
structure Ball where
  position : Vec
  velocity : Vec
  radius : ℚ
  width : ℚ
  height : ℚ
  speed : ℚ
  active : Bool
deriving DecidableEq, Repr

/-- types.ts `Paddle`. -/
structure Paddle where
  position : Vec
  width : ℚ
  height : ℚ
  speed : ℚ
  maxSpeed : ℚ
  active : Bool
deriving DecidableEq, Repr

/-- types.ts `Brick`; `special` models `type = BrickType.SPECIAL`. -/
structure Brick where
  position : Vec
  width : ℚ
  height : ℚ
  special : Bool
  points : ℤ
  active : Bool
deriving DecidableEq, Repr

/-- types.ts `PowerUp`. -/
structure PowerUp where
  position : Vec
  width : ℚ
  height : ℚ
  ptype : PowerUpType
  velocity : Vec
  active : Bool
deriving DecidableEq, Repr

/-- powerups.ts `ActivePowerUp`: a registered timed effect. -/
structure ActivePowerUp where
  ptype : PowerUpType
  player : Side
  expiresAt : ℚ
deriving DecidableEq, Repr

/-- types.ts `GameState`. -/
structure GameState where
  balls : List Ball
  playerPaddle : Paddle
  aiPaddle : Paddle
  bricks : List Brick
  powerUps : List PowerUp
  playerScore : ℤ
  aiScore : ℤ
  playerLives : ℤ
  aiLives : ℤ
  timeRemaining : ℚ
  gameOver : Bool
  paused : Bool
deriving DecidableEq, Repr

/-- types.ts `AIDifficulty`. -/
inductive AIDifficulty
  | easy
  | normal
  | hard
deriving DecidableEq, Repr

/-- types.ts `GameConfig`. -/
structure GameConfig where
  width : ℚ
  height : ℚ
  brickRows : ℕ
  brickCols : ℕ
  initialLives : ℤ
  gameDuration : ℚ
  aiDifficulty : AIDifficulty
deriving DecidableEq, Repr

/-- The module-level mutable variables of ai.ts (`lastUpdateTime`, in
seconds, and `targetPosition`). -/
structure AIState where
  lastUpdateTime : ℚ
  targetPosition : ℚ
deriving DecidableEq, Repr

/-- All state threaded through one engine tick: the `GameState` aggregate,
the module-level power-up registry of powerups.ts, the module-level AI
decision state of ai.ts, the events handed to the callback so far (in
order), and the index of the next unread oracle-stream value. -/
structure Ctx where
  gs : GameState
  reg : List ActivePowerUp
  ai : AIState
  events : List GameEvent
  k : ℕ
deriving DecidableEq, Repr

/-- View a paddle as the rectangle read by `checkCollision`. -/
def Paddle.obj (p : Paddle) : GameObj := ⟨p.position, p.width, p.height⟩

/-- View a brick as the rectangle read by `checkCollision`. -/
def Brick.obj (b : Brick) : GameObj := ⟨b.position, b.width, b.height⟩

/-- physics.ts `checkCollision` (executable rational version; the exact
real version is `Phys.checkCollision`). -/
def checkCollision (ball : Ball) (object : GameObj) : Bool :=
  let closestX := max object.position.x (min ball.position.x (object.position.x + object.width))
  let closestY := max object.position.y (min ball.position.y (object.position.y + object.height))
  let distanceX := ball.position.x - closestX
  let distanceY := ball.position.y - closestY
  decide (distanceX * distanceX + distanceY * distanceY < ball.radius * ball.radius)

/-- physics.ts `handlePaddleCollision`, engine-level view: the assigned
velocity is `(sin bounceAngle · speed, −cos bounceAngle · speed)`.  The
sine, cosine and speed are irrational in general, so here they are the
oracle values `sinB`, `cosB`, `speed`; the exact real formula is
`Phys.handlePaddleCollision`. -/
def handlePaddleCollision (sinB cosB speed : ℚ) : Vec :=
  ⟨sinB * speed, -(cosB * speed)⟩

/-- physics.ts `handleBrickCollision`, engine-level view: reflect the
velocity across the normalised collision normal and add the jitter
`(r − 0.5) · 0.05` per axis.  The normalised normal is irrational in
general, so its components are the oracle values `nX`, `nY`; the exact
real formula (including the division-by-zero case) is
`Phys.handleBrickCollision`.  `j1`, `j2` are the two `Math.random()`
draws. -/
def handleBrickCollision (ball : Ball) (nX nY j1 j2 : ℚ) : Vec :=
  let dotProduct := ball.velocity.x * nX + ball.velocity.y * nY
  ⟨ball.velocity.x - 2 * dotProduct * nX + (j1 - 1/2) * (1/20),
   ball.velocity.y - 2 * dotProduct * nY + (j2 - 1/2) * (1/20)⟩

/-- Left/right-wall part of physics.ts `handleWallCollision`: invert
`velocity.x` and clamp the position back inside. -/
def wallX (ball : Ball) (gameWidth : ℚ) : Ball :=
  if ball.position.x - ball.radius ≤ 0 ∨ gameWidth ≤ ball.position.x + ball.radius then
    { ball with
      velocity := ⟨-ball.velocity.x, ball.velocity.y⟩,
      position := ⟨if ball.position.x - ball.radius ≤ 0 then ball.radius
                   else gameWidth - ball.radius,
                   ball.position.y⟩ }
  else ball

/-- physics.ts `handleWallCollision`: side walls, then the top wall, which
inverts `velocity.y` and resets `position.y` to the radius.  The returned
`collided` flag of the source is never read by the engine and is dropped.
The engine calls this function with a third argument (`config.height`)
that the two-parameter source function ignores. -/
def handleWallCollision (ball : Ball) (gameWidth : ℚ) : Ball :=
  let b1 := wallX ball gameWidth
  if b1.position.y - b1.radius ≤ 0 then
    { b1 with
      velocity := ⟨b1.velocity.x, -b1.velocity.y⟩,
      position := ⟨b1.position.x, b1.radius⟩ }
  else b1

/-- physics.ts `isBallLost`: the ball is past the bottom edge. -/
def isBallLost (ball : Ball) (gameHeight : ℚ) : Bool :=
  decide (gameHeight < ball.position.y - ball.radius)

/-- physics.ts `updateBallPosition`: integrate the position; a finished
match doubles the speed. -/
def updateBallPosition (ball : Ball) (deltaTime : ℚ) (gameOver : Bool) : Ball :=
  let speedMultiplier : ℚ := if gameOver then 2 else 1
  { ball with
    position := ⟨ball.position.x + ball.velocity.x * ball.speed * deltaTime * speedMultiplier,
                 ball.position.y + ball.velocity.y * ball.speed * deltaTime * speedMultiplier⟩ }

/-- The temporary ball the source builds from a power-up for the catch
test, with `radius = min(width, height)/2`.  Its `speed` field is
`Math.sqrt(vx² + vy²)` in the source (irrational) but is never read by
`checkCollision`, so it is set to 0 here. -/
def PowerUp.asBall (pu : PowerUp) : Ball :=
  ⟨pu.position, pu.velocity, min pu.width pu.height / 2, pu.width, pu.height, 0, pu.active⟩

/-- physics.ts `updatePowerUp`: fall by `velocity.y · deltaTime`; report a
catch against the paddle; otherwise deactivate the power-up as soon as its
position passes `gameHeight`. -/
def updatePowerUp (powerUp : PowerUp) (paddle : Paddle) (gameHeight deltaTime : ℚ) :
    PowerUp × Bool :=
  let pu := { powerUp with
              position := ⟨powerUp.position.x, powerUp.position.y + powerUp.velocity.y * deltaTime⟩ }
  if checkCollision pu.asBall paddle.obj then (pu, true)
  else if gameHeight < pu.position.y then ({ pu with active := false }, false)
  else (pu, false)

/-- gameEngine.ts `DEFAULT_CONFIG.height`, read by powerups.ts. -/
def defaultHeight : ℚ := 600

/-- powerups.ts `createPowerUp`: a random type
(`powerUpTypes[Math.floor(r·3)]` in declaration order), size 30×15,
falling at `(0, 100)`. -/
def createPowerUp (position : Vec) (r : ℚ) : PowerUp :=
  let idx := ⌊r * 3⌋
  let t := if idx = 0 then PowerUpType.expandPaddle
           else if idx = 1 then PowerUpType.extraBall
           else PowerUpType.slowBall
  ⟨position, 30, 15, t, ⟨0, 100⟩, true⟩

/-- powerups.ts `applyPowerUp`.  Returns the updated game state, the
updated module-level registry, and the next oracle index.
ExpandPaddle: width ×1.5, re-center, register a 10 s effect.
ExtraBall: if the catching side holds fewer than 3 balls (attributed by
arena half), clone an active ball (or synthesise one at the paddle) with a
fresh launch direction — the direction components are irrational
(`Phys.extraBallVelocity` is the exact formula) and are drawn here from
the oracle stream.
SlowBall: every active ball's speed ×0.7 and, inside that same loop, one
8 s registry entry is pushed per active ball. -/
def applyPowerUp (gs : GameState) (powerUp : PowerUp) (player : Side) (nowMs : ℚ)
    (reg : List ActivePowerUp) (rnd : ℕ → ℚ) (k : ℕ) :
    GameState × List ActivePowerUp × ℕ :=
  match powerUp.ptype with
  | PowerUpType.expandPaddle =>
    let paddle := if player = Side.human then gs.playerPaddle else gs.aiPaddle
    let originalWidth := paddle.width
    let newWidth := paddle.width * (3/2)
    let paddle1 := { paddle with
                     width := newWidth,
                     position := ⟨paddle.position.x - (newWidth - originalWidth) / 2,
                                  paddle.position.y⟩ }
    let gs1 := if player = Side.human then { gs with playerPaddle := paddle1 }
               else { gs with aiPaddle := paddle1 }
    (gs1, reg ++ [⟨PowerUpType.expandPaddle, player, nowMs + 10000⟩], k)
  | PowerUpType.extraBall =>
    let playerBalls := gs.balls.filter (fun b =>
      decide ((player = Side.human ∧ defaultHeight / 2 < b.position.y) ∨
              (player = Side.ai ∧ b.position.y < defaultHeight / 2)))
    if playerBalls.length < 3 then
      let paddle := if player = Side.human then gs.playerPaddle else gs.aiPaddle
      let sourceBall :=
        (gs.balls.find? (fun b => b.active)).getD
          { position := ⟨paddle.position.x + paddle.width / 2,
                         if player = Side.human then paddle.position.y - 10
                         else paddle.position.y + paddle.height + 10⟩,
            velocity := ⟨0, if player = Side.human then -1 else 1⟩,
            radius := 8, width := 16, height := 16, speed := 300, active := true }
      let newBall := { sourceBall with
                       velocity := ⟨rnd k, rnd (k + 1)⟩,
                       active := true }
      ({ gs with balls := gs.balls ++ [newBall] }, reg, k + 2)
    else (gs, reg, k)
  | PowerUpType.slowBall =>
    let balls1 := gs.balls.map (fun b =>
      if b.active then { b with speed := b.speed * (7/10) } else b)
    let newEntries := (gs.balls.filter (fun b => b.active)).map
      (fun _ => (⟨PowerUpType.slowBall, player, nowMs + 8000⟩ : ActivePowerUp))
    ({ gs with balls := balls1 }, reg ++ newEntries, k)

/-- One reversal step of powerups.ts `updatePowerUps`: undo a single
expired registry entry (divide the paddle width back down and re-center,
or divide every active ball's speed back up).  The source switch has no
ExtraBall case. -/
def revertPowerUp (gs : GameState) (pu : ActivePowerUp) : GameState :=
  match pu.ptype with
  | PowerUpType.expandPaddle =>
    let paddle := if pu.player = Side.human then gs.playerPaddle else gs.aiPaddle
    let w := paddle.width * (2/3)
    let paddle1 := { paddle with
                     width := w,
                     position := ⟨paddle.position.x + (w * (3/2) - w) / 2, paddle.position.y⟩ }
    if pu.player = Side.human then { gs with playerPaddle := paddle1 }
    else { gs with aiPaddle := paddle1 }
  | PowerUpType.slowBall =>
    { gs with balls := gs.balls.map (fun b =>
        if b.active then { b with speed := b.speed * (10/7) } else b) }
  | PowerUpType.extraBall => gs

/-- powerups.ts `updatePowerUps`: revert every registry entry whose expiry
has passed (in registry order) and remove exactly those entries. -/
def updatePowerUps (gs : GameState) (reg : List ActivePowerUp) (nowMs : ℚ) :
    GameState × List ActivePowerUp :=
  let expired := reg.filter (fun pu => decide (pu.expiresAt ≤ nowMs))
  (expired.foldl revertPowerUp gs, reg.filter (fun pu => decide (nowMs < pu.expiresAt)))

/-- ai.ts per-tier settings (speed multiplier, prediction accuracy,
reaction delay in seconds, mistake chance). -/
structure DifficultySettings where
  speedMultiplier : ℚ
  predictionAccuracy : ℚ
  reactionDelay : ℚ
  errorChance : ℚ
deriving DecidableEq, Repr

/-- ai.ts `difficultySettings`. -/
def difficultySettings : AIDifficulty → DifficultySettings
  | AIDifficulty.easy => ⟨1/2, 7/10, 3/10, 3/10⟩
  | AIDifficulty.normal => ⟨4/5, 17/20, 3/20, 3/20⟩
  | AIDifficulty.hard => ⟨1, 19/20, 1/20, 1/20⟩

/-- The simple AABB overlap test used inside the hard-tier rollout of
ai.ts `predictBallLanding`. -/
def brickOverlapAABB (pos : Vec) (radius : ℚ) (brick : Brick) : Bool :=
  decide (brick.position.x < pos.x + radius) &&
  decide (pos.x - radius < brick.position.x + brick.width) &&
  decide (brick.position.y < pos.y + radius) &&
  decide (pos.y - radius < brick.position.y + brick.height)

/-- One iteration of the rollout loop of `predictBallLanding`: advance by
the raw velocity, reflect `velocity.x` at the side walls, and (hard tier
only) invert `velocity.y` on the first overlapped active brick. -/
def simStep (gameWidth radius : ℚ) (bricks : List Brick) (hard : Bool) (pos vel : Vec) :
    Vec × Vec :=
  let pos1 : Vec := ⟨pos.x + vel.x, pos.y + vel.y⟩
  let vel1 := if pos1.x - radius ≤ 0 ∨ gameWidth ≤ pos1.x + radius
              then (⟨-vel.x, vel.y⟩ : Vec) else vel
  let vel2 := if hard && bricks.any (fun b => b.active && brickOverlapAABB pos1 radius b)
              then (⟨vel1.x, -vel1.y⟩ : Vec) else vel1
  (pos1, vel2)

/-- The bounded rollout of `predictBallLanding`: iterate `simStep` while
the simulated ball is above the paddle's y-level, for at most `fuel`
(source: 1000) steps, and return the final position. -/
def simulateBall (gameWidth radius paddleY : ℚ) (bricks : List Brick) (hard : Bool) :
    ℕ → Vec → Vec → Vec
  | 0, pos, _ => pos
  | fuel + 1, pos, vel =>
    if pos.y < paddleY then
      let s := simStep gameWidth radius bricks hard pos vel
      simulateBall gameWidth radius paddleY bricks hard fuel s.1 s.2
    else pos

/-- ai.ts `predictBallLanding`.  Easy tier: track the ball's current x
(returned before any error is added).  Otherwise: bounded rollout, then add
the random error `(rErr − 0.5)(1 − accuracy) · gameWidth` and clamp into
`[0, gameWidth]`. -/
def predictBallLanding (ball : Ball) (gameWidth paddleY : ℚ) (bricks : List Brick)
    (difficulty : AIDifficulty) (rErr : ℚ) : ℚ :=
  if difficulty = AIDifficulty.easy then ball.position.x
  else
    let finalPos := simulateBall gameWidth ball.radius paddleY bricks
      (decide (difficulty = AIDifficulty.hard)) 1000 ball.position ball.velocity
    let settings := difficultySettings difficulty
    let errorAmount := (rErr - 1/2) * (1 - settings.predictionAccuracy) * gameWidth
    max 0 (min gameWidth (finalPos.x + errorAmount))

/-- The accumulator step of the `reduce` in ai.ts `updateAI` that selects
the active ball vertically closest to the AI paddle; the `null`
accumulator (distance Infinity) is `none`. -/
def closerBall (aiPaddleY : ℚ) (closest : Option Ball) (ball : Ball) : Option Ball :=
  match closest with
  | none => some ball
  | some c =>
    if |ball.position.y - aiPaddleY| < |c.position.y - aiPaddleY| then some ball else some c

/-- ai.ts `updateAI`.  Returns the new AI paddle and the new module-level
AI state.  `nowMs` is `Date.now()`; the source works with
`currentTime = nowMs/1000` seconds.  `rErr`, `rMistake`, `rSign` are the
oracle values for the three `Math.random()` call sites (a site that is not
executed simply leaves its oracle value unread). -/
def updateAI (gs : GameState) (deltaTime gameWidth : ℚ) (difficulty : AIDifficulty)
    (ai : AIState) (nowMs rErr rMistake rSign : ℚ) : Paddle × AIState :=
  let aiPaddle := gs.aiPaddle
  let settings := difficultySettings difficulty
  if gs.balls.length = 0 ∨ gs.balls.any (fun b => b.active) = false then (aiPaddle, ai)
  else
    match (gs.balls.filter (fun b => b.active)).foldl (closerBall aiPaddle.position.y) none with
    | none => (aiPaddle, ai)
    | some closestBall =>
      let currentTime := nowMs / 1000
      let recompute := decide (settings.reactionDelay < currentTime - ai.lastUpdateTime)
      let target0 := if recompute
                     then predictBallLanding closestBall gameWidth aiPaddle.position.y
                            gs.bricks difficulty rErr
                     else ai.targetPosition
      let target1 := if recompute && decide (rMistake < settings.errorChance)
                     then target0 + (if rSign < 1/2 then -1 else 1) * aiPaddle.width * (3/4)
                     else target0
      let lastT := if recompute then currentTime else ai.lastUpdateTime
      let paddleCenter := aiPaddle.position.x + aiPaddle.width / 2
      let moveDirection : ℚ :=
        if paddleCenter < target1 - 5 then 1
        else if target1 + 5 < paddleCenter then -1
        else 0
      let moveSpeed := aiPaddle.maxSpeed * settings.speedMultiplier
      let newX := max 0 (min (gameWidth - aiPaddle.width)
        (aiPaddle.position.x + moveDirection * moveSpeed * deltaTime))
      ({ aiPaddle with position := ⟨newX, aiPaddle.position.y⟩ }, ⟨lastT, target1⟩)

/-- One brick from gameEngine.ts `createBricks`: vertical pitch
`brickHeight + paddingY = 25`, `paddingX = 10`, 4px gap, 20% special
chance (`r < 0.2`), 30 points for special bricks and 10 otherwise. -/
def createBrick (brickWidth startY : ℚ) (flipped : Bool) (row col : ℕ) (r : ℚ) : Brick :=
  let isSpecial := decide (r < 1/5)
  { position := ⟨10 + (col : ℚ) * brickWidth,
                 startY + (row : ℚ) * 25 * (if flipped then 1 else -1)⟩,
    width := brickWidth - 4,
    height := 20,
    special := isSpecial,
    points := if isSpecial then 30 else 10,
    active := true }

/-- gameEngine.ts `createBricks`: a rows × cols grid in row-major order;
each brick reads one oracle value for its special roll. -/
def createBricks (cfg : GameConfig) (startY : ℚ) (flipped : Bool) (rnd : ℕ → ℚ) (k : ℕ) :
    List Brick :=
  let brickWidth := (cfg.width - 20) / (cfg.brickCols : ℚ)
  (List.range cfg.brickRows).flatMap (fun row =>
    (List.range cfg.brickCols).map (fun col =>
      createBrick brickWidth startY flipped row col (rnd (k + row * cfg.brickCols + col))))

/-- gameEngine.ts `createInitialState`: both paddles 100×15 at the arena
center, one ball per side with a random horizontal velocity
`(r − 0.5)·200` and vertical launch ∓300, the two mirrored brick grids,
and fresh counters. -/
def createInitialState (cfg : GameConfig) (rnd : ℕ → ℚ) : GameState :=
  let playerPaddle : Paddle := ⟨⟨cfg.width / 2 - 50, cfg.height - 30⟩, 100, 15, 0, 500, true⟩
  let aiPaddle : Paddle := ⟨⟨cfg.width / 2 - 50, 15⟩, 100, 15, 0, 500, true⟩
  let ball : Ball := ⟨⟨cfg.width / 2, cfg.height - 50⟩, ⟨(rnd 0 - 1/2) * 200, -300⟩,
                      8, 16, 16, 1, true⟩
  let aiBall : Ball := ⟨⟨cfg.width / 2, 50⟩, ⟨(rnd 1 - 1/2) * 200, 300⟩, 8, 16, 16, 1, true⟩
  let playerBricks := createBricks cfg (cfg.height - 250) false rnd 2
  let aiBricks := createBricks cfg 50 true rnd (2 + cfg.brickRows * cfg.brickCols)
  { balls := [ball, aiBall],
    playerPaddle := playerPaddle,
    aiPaddle := aiPaddle,
    bricks := playerBricks ++ aiBricks,
    powerUps := [],
    playerScore := 0,
    aiScore := 0,
    playerLives := cfg.initialLives,
    aiLives := cfg.initialLives,
    timeRemaining := cfg.gameDuration,
    gameOver := false,
    paused := false }

/-- gameEngine.ts `reset`: only `this.state` is replaced by a fresh
`createInitialState()`.  The module-level `activePowerUps` registry of
powerups.ts and the module-level `lastUpdateTime`/`targetPosition` of
ai.ts are not touched by `reset` and survive into the new match, which is
why they are passed through unchanged here. -/
def resetCtx (cfg : GameConfig) (rnd : ℕ → ℚ) (reg : List ActivePowerUp) (ai : AIState) :
    Ctx :=
  ⟨createInitialState cfg rnd, reg, ai, [], 0⟩

/-- The body of the falling-power-up loop of gameEngine.ts `update` for a
single power-up: test a catch by the player paddle
(`updatePowerUp(pu, playerPaddle, height, dt)`), then by the AI paddle
(`updatePowerUp(pu, aiPaddle, 0, −dt)`); a catch applies the effect,
emits a power-up event and removes the power-up (`none`); otherwise the
power-up is removed exactly when its `active` flag has been cleared. -/
def processPowerUp (cfg : GameConfig) (rnd : ℕ → ℚ) (nowMs deltaTime : ℚ) (ctx : Ctx)
    (powerUp : PowerUp) : Option PowerUp × Ctx :=
  let r1 := updatePowerUp powerUp ctx.gs.playerPaddle cfg.height deltaTime
  if r1.2 then
    let a := applyPowerUp ctx.gs r1.1 Side.human nowMs ctx.reg rnd ctx.k
    (none, { ctx with
             gs := a.1, reg := a.2.1, k := a.2.2,
             events := ctx.events ++ [GameEvent.power_up Side.human powerUp.ptype] })
  else
    let r2 := updatePowerUp r1.1 ctx.gs.aiPaddle 0 (-deltaTime)
    if r2.2 then
      let a := applyPowerUp ctx.gs r2.1 Side.ai nowMs ctx.reg rnd ctx.k
      (none, { ctx with
               gs := a.1, reg := a.2.1, k := a.2.2,
               events := ctx.events ++ [GameEvent.power_up Side.ai powerUp.ptype] })
    else if r2.1.active then (some r2.1, ctx)
    else (none, ctx)

/-- The falling-power-up loop of `update`.  The source iterates the array
from the last index down to 0 and splices in place, so the elements are
processed back to front while the surviving elements keep their relative
order; the recursion below processes the tail (higher indices) first. -/
def processPowerUpList (cfg : GameConfig) (rnd : ℕ → ℚ) (nowMs deltaTime : ℚ) :
    List PowerUp → Ctx → List PowerUp × Ctx
  | [], ctx => ([], ctx)
  | pu :: rest, ctx =>
    let r := processPowerUpList cfg rnd nowMs deltaTime rest ctx
    let h := processPowerUp cfg rnd nowMs deltaTime r.2 pu
    (match h.1 with
     | some pu1 => pu1 :: r.1
     | none => r.1, h.2)

/-- The loss-detection block of the ball loop (gameEngine.ts lines
302-360): a ball past the bottom edge moving downward costs the human a
life (life-lost event, then either game over with winner `ai` or a respawn
at the player paddle with velocity `((r−0.5)·200, −300)`); a ball with
`position.y < 0` moving upward costs the AI a life symmetrically. -/
def lossPhase (cfg : GameConfig) (rnd : ℕ → ℚ) (ctx : Ctx) (b : Ball) : Ball × Ctx :=
  if isBallLost b cfg.height then
    if 0 < b.velocity.y then
      let lives := ctx.gs.playerLives - 1
      let ev := ctx.events ++ [GameEvent.life_lost Side.human lives]
      if lives ≤ 0 then
        (b, { ctx with
              gs := { ctx.gs with playerLives := lives, gameOver := true },
              events := ev ++ [GameEvent.game_over Winner.ai] })
      else
        let pp := ctx.gs.playerPaddle
        ({ b with
           position := ⟨pp.position.x + pp.width / 2, pp.position.y - 20⟩,
           velocity := ⟨(rnd ctx.k - 1/2) * 200, -300⟩ },
         { ctx with
           gs := { ctx.gs with playerLives := lives },
           events := ev, k := ctx.k + 1 })
    else (b, ctx)
  else if b.position.y < 0 then
    if b.velocity.y < 0 then
      let lives := ctx.gs.aiLives - 1
      let ev := ctx.events ++ [GameEvent.life_lost Side.ai lives]
      if lives ≤ 0 then
        (b, { ctx with
              gs := { ctx.gs with aiLives := lives, gameOver := true },
              events := ev ++ [GameEvent.game_over Winner.human] })
      else
        let ap := ctx.gs.aiPaddle
        ({ b with
           position := ⟨ap.position.x + ap.width / 2, ap.position.y + ap.height + 20⟩,
           velocity := ⟨(rnd ctx.k - 1/2) * 200, 300⟩ },
         { ctx with
           gs := { ctx.gs with aiLives := lives },
           events := ev, k := ctx.k + 1 })
    else (b, ctx)
  else (b, ctx)

/-- The paddle-collision block of the ball loop: a downward ball hitting
the player paddle, or an upward ball hitting the AI paddle, gets the
paddle-bounce velocity (sine/cosine/speed drawn from the oracle stream;
exact formula `Phys.handlePaddleCollision`). -/
def paddlePhase (rnd : ℕ → ℚ) (ctx : Ctx) (b : Ball) : Ball × Ctx :=
  if 0 < b.velocity.y ∧ checkCollision b ctx.gs.playerPaddle.obj then
    ({ b with velocity := handlePaddleCollision (rnd ctx.k) (rnd (ctx.k + 1)) (rnd (ctx.k + 2)) },
     { ctx with k := ctx.k + 3 })
  else if b.velocity.y < 0 ∧ checkCollision b ctx.gs.aiPaddle.obj then
    ({ b with velocity := handlePaddleCollision (rnd ctx.k) (rnd (ctx.k + 1)) (rnd (ctx.k + 2)) },
     { ctx with k := ctx.k + 3 })
  else (b, ctx)

/-- The brick-collision loop of the ball loop, in forward order: an
overlapped active brick bounces the ball (oracle normal and jitter),
deactivates, scores for the side given by the post-bounce vertical
velocity direction (emitting a score event with the new total), and, when
special, spawns a power-up at the brick position. -/
def brickLoop (rnd : ℕ → ℚ) : List Brick → Ball → Ctx → List Brick × Ball × Ctx
  | [], b, ctx => ([], b, ctx)
  | brick :: rest, b, ctx =>
    if brick.active && checkCollision b brick.obj then
      let v := handleBrickCollision b (rnd ctx.k) (rnd (ctx.k + 1)) (rnd (ctx.k + 2))
                 (rnd (ctx.k + 3))
      let b1 := { b with velocity := v }
      let brick1 := { brick with active := false }
      let k1 := ctx.k + 4
      let gs1 := if v.y < 0 then { ctx.gs with playerScore := ctx.gs.playerScore + brick.points }
                 else { ctx.gs with aiScore := ctx.gs.aiScore + brick.points }
      let ev1 := ctx.events ++ [if v.y < 0 then GameEvent.score Side.human gs1.playerScore
                                else GameEvent.score Side.ai gs1.aiScore]
      let gs2 := if brick.special
                 then { gs1 with powerUps := gs1.powerUps ++ [createPowerUp brick.position (rnd k1)] }
                 else gs1
      let k2 := if brick.special then k1 + 1 else k1
      let r := brickLoop rnd rest b1 { ctx with gs := gs2, events := ev1, k := k2 }
      (brick1 :: r.1, r.2.1, r.2.2)
    else
      let r := brickLoop rnd rest b ctx
      (brick :: r.1, r.2.1, r.2.2)

/-- The body of the ball loop of `update` for one ball: skip inactive
balls; otherwise integrate, resolve walls
(`handleWallCollision(ball, width, height)` — the extra `height` argument
is ignored by the two-parameter function), run loss detection, then the
paddle and brick collision blocks. -/
def stepBall (cfg : GameConfig) (rnd : ℕ → ℚ) (deltaTime : ℚ) (ctx : Ctx) (b : Ball) :
    Ball × Ctx :=
  if b.active then
    let b1 := updateBallPosition b deltaTime ctx.gs.gameOver
    let b2 := handleWallCollision b1 cfg.width
    let r3 := lossPhase cfg rnd ctx b2
    let r4 := paddlePhase rnd r3.2 r3.1
    let r5 := brickLoop rnd r4.2.gs.bricks r4.1 r4.2
    (r5.2.1, { r5.2.2 with gs := { r5.2.2.gs with bricks := r5.1 } })
  else (b, ctx)

/-- The ball loop of `update`: the source iterates from the last index
down to 0 (no element is removed), so the tail is processed first and the
list order is preserved. -/
def processBalls (cfg : GameConfig) (rnd : ℕ → ℚ) (deltaTime : ℚ) :
    List Ball → Ctx → List Ball × Ctx
  | [], ctx => ([], ctx)
  | b :: rest, ctx =>
    let r := processBalls cfg rnd deltaTime rest ctx
    let h := stepBall cfg rnd deltaTime r.2 b
    (h.1 :: r.1, h.2)

/-- gameEngine.ts `update`: decrement the clock and, at zero, finish the
match with the score-comparison winner; otherwise run the AI, the effect
expiry sweep, the falling-power-up loop and the ball loop, and finally
emit a time-update event when a whole second was crossed. -/
def update (cfg : GameConfig) (rnd : ℕ → ℚ) (nowMs : ℚ) (ctx : Ctx) (deltaTime : ℚ) : Ctx :=
  let t1 := ctx.gs.timeRemaining - deltaTime
  if t1 ≤ 0 then
    let winner := if ctx.gs.aiScore < ctx.gs.playerScore then Winner.human
                  else if ctx.gs.playerScore < ctx.gs.aiScore then Winner.ai
                  else Winner.tie
    { ctx with
      gs := { ctx.gs with timeRemaining := 0, gameOver := true },
      events := ctx.events ++ [GameEvent.game_over winner] }
  else
    let gs0 := { ctx.gs with timeRemaining := t1 }
    let aiSpeedMultiplier : ℚ := if gs0.gameOver then 3 else 1
    let pAI := updateAI gs0 (deltaTime * aiSpeedMultiplier) cfg.width cfg.aiDifficulty
                 ctx.ai nowMs (rnd ctx.k) (rnd (ctx.k + 1)) (rnd (ctx.k + 2))
    let gs1 := { gs0 with aiPaddle := pAI.1 }
    let up := updatePowerUps gs1 ctx.reg nowMs
    let ctx1 : Ctx := ⟨up.1, up.2, pAI.2, ctx.events, ctx.k + 3⟩
    let pp := processPowerUpList cfg rnd nowMs deltaTime ctx1.gs.powerUps ctx1
    let ctx2 := { pp.2 with gs := { pp.2.gs with powerUps := pp.1 } }
    let pb := processBalls cfg rnd deltaTime ctx2.gs.balls ctx2
    let ctx3 := { pb.2 with gs := { pb.2.gs with balls := pb.1 } }
    if ⌊t1⌋ ≠ ⌊t1 + deltaTime⌋ then
      { ctx3 with events := ctx3.events ++ [GameEvent.time_update ⌊t1⌋] }
    else ctx3

/-- A constant oracle stream used by the concrete runs. -/
def rndHalf : ℕ → ℚ := fun _ => 1/2

/-- The source `DEFAULT_CONFIG`. -/
def cfgStd : GameConfig := ⟨800, 600, 5, 10, 3, 120, AIDifficulty.normal⟩

/-- A configuration with an empty brick grid, keeping concrete runs small. -/
def cfgTiny : GameConfig := ⟨800, 600, 0, 0, 3, 120, AIDifficulty.normal⟩

/-- An ExpandPaddle power-up hovering just over the AI paddle parked at the
left edge. -/
def puC6 : PowerUp := ⟨⟨5, 20⟩, 30, 15, PowerUpType.expandPaddle, ⟨0, 100⟩, true⟩

/-- A state whose only live object is `puC6`; the AI paddle sits at x = 0. -/
def gsC6 : GameState :=
  { balls := [],
    playerPaddle := ⟨⟨350, 570⟩, 100, 15, 0, 500, true⟩,
    aiPaddle := ⟨⟨0, 15⟩, 100, 15, 0, 500, true⟩,
    bricks := [],
    powerUps := [puC6],
    playerScore := 0, aiScore := 0, playerLives := 3, aiLives := 3,
    timeRemaining := 100, gameOver := false, paused := false }

/-- Tick context for the `gsC6` run (empty registry, zeroed AI state). -/
def ctxC6 : Ctx := ⟨gsC6, [], ⟨0, 0⟩, [], 0⟩

/-- Two active balls of speed 1. -/
def ballS1 : Ball := ⟨⟨100, 400⟩, ⟨0, -300⟩, 8, 16, 16, 1, true⟩

/-- Second active ball of speed 1. -/
def ballS2 : Ball := ⟨⟨700, 420⟩, ⟨0, -300⟩, 8, 16, 16, 1, true⟩

/-- A state with two active balls, used for the SlowBall run. -/
def gsC3 : GameState := { gsC6 with balls := [ballS1, ballS2], powerUps := [] }

/-- A SlowBall power-up. -/
def puSlow : PowerUp := ⟨⟨400, 300⟩, 30, 15, PowerUpType.slowBall, ⟨0, 100⟩, true⟩

/-- A registry entry left behind by the previous match: an ExpandPaddle
effect for the human side expiring at t = 5000 ms. -/
def leftoverReg : List ActivePowerUp := [⟨PowerUpType.expandPaddle, Side.human, 5000⟩]

/-- A falling power-up in mid-arena, far from both paddles. -/
def puC2 : PowerUp := ⟨⟨400, 300⟩, 30, 15, PowerUpType.expandPaddle, ⟨0, 100⟩, true⟩

/-- A state with both paddles at their standard positions and `puC2`
falling in mid-arena. -/
def gsC2 : GameState :=
  { gsC6 with aiPaddle := ⟨⟨350, 15⟩, 100, 15, 0, 500, true⟩, powerUps := [puC2] }

/-- Tick context for the `gsC2` run. -/
def ctxC2 : Ctx := ⟨gsC2, [], ⟨0, 0⟩, [], 0⟩

/-- A ball crossing the top edge while moving upward. -/
def ballC1 : Ball := ⟨⟨400, 5⟩, ⟨0, -300⟩, 8, 16, 16, 1, true⟩

/-- A state holding `ballC1`, with three AI lives. -/
def gsC1 : GameState := { gsC2 with balls := [ballC1], powerUps := [] }

/-- Tick context for the `gsC1` run. -/
def ctxC1 : Ctx := ⟨gsC1, [], ⟨0, 0⟩, [], 0⟩

/-- A state one instant before the clock runs out, with the human ahead
50 : 30 and all lives intact. -/
def gsC7 : GameState := { gsC1 with playerScore := 50, aiScore := 30, timeRemaining := 1/100 }

/-- Tick context for the `gsC7` run. -/
def ctxC7 : Ctx := ⟨gsC7, [], ⟨0, 0⟩, [], 0⟩

end Eng

namespace Phys

/-- A ball whose center lies strictly inside the demo brick. -/
def ballIn : Ball := ⟨⟨5, 5⟩, ⟨1, 2⟩, 8⟩

/-- A 10×10 brick at the origin. -/
def brickIn : GameObj := ⟨⟨0, 0⟩, 10, 10⟩

/-- A ball whose center lies strictly to the right of `brickIn`. -/
def ballOut : Ball := ⟨⟨20, 5⟩, ⟨1, 0⟩, 8⟩

/-- A ball for the paddle-bounce run, hitting the paddle's left end. -/
def ballW : Ball := ⟨⟨0, 10⟩, ⟨3, 4⟩, 8⟩

/-- A unit-width paddle under `ballW`. -/
def padW : Paddle := ⟨⟨0, 12⟩, 1⟩

/-- A unit circle at the origin. -/
def ballD : Ball := ⟨⟨0, 0⟩, ⟨0, 0⟩, 1⟩

/-- A 2×2 rectangle away from the origin. -/
def objD : GameObj := ⟨⟨5, 5⟩, 2, 2⟩

end Phys

namespace Phys

/-- Clamping a coordinate into a span never increases the squared distance
to any point of the span. -/
theorem sq_sub_clamp_le (a b c p : ℝ) (hab : a ≤ b) (hpa : a ≤ p) (hpb : p ≤ b) :
    (c - max a (min c b)) * (c - max a (min c b)) ≤ (c - p) * (c - p) := by
  rcases le_total c a with h1 | h1
  · rw [min_eq_left (h1.trans hab), max_eq_left h1]
    have h2 : 0 ≤ a - c := by linarith
    have h3 : a - c ≤ p - c := by linarith
    nlinarith
  · rcases le_total c b with h2 | h2
    · rw [min_eq_left h2, max_eq_right h1]
      simpa using mul_self_nonneg (c - p)
    · rw [min_eq_right h2, max_eq_right hab]
      have h3 : 0 ≤ c - b := by linarith
      have h4 : c - b ≤ c - p := by linarith
      nlinarith

/-- The clamped closest point lies in the rectangle. -/
theorem closestPoint_memRect (p : Vec) (o : GameObj) (hw : 0 ≤ o.width) (hh : 0 ≤ o.height) :
    memRect o (closestPoint p o) := by
  refine ⟨le_max_left _ _, max_le (by linarith) (min_le_right _ _),
          le_max_left _ _, max_le (by linarith) (min_le_right _ _)⟩

/-- The clamped closest point minimises the squared distance over the
rectangle. -/
theorem distSq_closestPoint_le (c p : Vec) (o : GameObj)
    (hw : 0 ≤ o.width) (hh : 0 ≤ o.height) (hp : memRect o p) :
    distSq c (closestPoint c o) ≤ distSq c p := by
  obtain ⟨h1, h2, h3, h4⟩ := hp
  have hx := sq_sub_clamp_le o.position.x (o.position.x + o.width) c.x p.x (by linarith) h1 h2
  have hy := sq_sub_clamp_le o.position.y (o.position.y + o.height) c.y p.y (by linarith) h3 h4
  exact add_le_add hx hy

end Phys

/-- C9: for every circle with positive radius and every well-formed
axis-aligned rectangle, `checkCollision` holds iff the minimum Euclidean
distance from the circle's center to the rectangle is strictly less than
the radius: the clamped closest point lies in the rectangle, realises the
minimum distance over all rectangle points, and `checkCollision` is
equivalent to that distance being below the radius. -/
theorem checkCollision_iff_min_dist (ball : Phys.Ball) (o : Phys.GameObj)
    (hr : 0 < ball.radius) (hw : 0 ≤ o.width) (hh : 0 ≤ o.height) :
    Phys.memRect o (Phys.closestPoint ball.position o) ∧
    (∀ p : Phys.Vec, Phys.memRect o p →
      Phys.euclidDist ball.position (Phys.closestPoint ball.position o) ≤
        Phys.euclidDist ball.position p) ∧
    (Phys.checkCollision ball o ↔
      Phys.euclidDist ball.position (Phys.closestPoint ball.position o) < ball.radius) := by
  refine ⟨Phys.closestPoint_memRect _ _ hw hh,
          fun p hp => Real.sqrt_le_sqrt (Phys.distSq_closestPoint_le _ _ _ hw hh hp), ?_⟩
  unfold Phys.checkCollision Phys.euclidDist
  rw [Real.sqrt_lt' hr]
  constructor
  · intro h
    calc Phys.distSq ball.position (Phys.closestPoint ball.position o)
        < ball.radius * ball.radius := h
      _ = ball.radius ^ 2 := by ring
  · intro h
    calc Phys.distSq ball.position (Phys.closestPoint ball.position o)
        < ball.radius ^ 2 := h
      _ = ball.radius * ball.radius := by ring

/-- Witness for C9 at a concrete circle/rectangle pair. -/
theorem checkCollision_iff_min_dist_witness :
    (0 < Phys.ballD.radius) ∧ (0 ≤ Phys.objD.width) ∧ (0 ≤ Phys.objD.height) ∧
    (Phys.memRect Phys.objD (Phys.closestPoint Phys.ballD.position Phys.objD) ∧
     (∀ p : Phys.Vec, Phys.memRect Phys.objD p →
       Phys.euclidDist Phys.ballD.position (Phys.closestPoint Phys.ballD.position Phys.objD) ≤
         Phys.euclidDist Phys.ballD.position p) ∧
     (Phys.checkCollision Phys.ballD Phys.objD ↔
       Phys.euclidDist Phys.ballD.position (Phys.closestPoint Phys.ballD.position Phys.objD) <
         Phys.ballD.radius)) :=
  ⟨by norm_num [Phys.ballD], by norm_num [Phys.objD], by norm_num [Phys.objD],
   checkCollision_iff_min_dist Phys.ballD Phys.objD (by norm_num [Phys.ballD])
     (by norm_num [Phys.objD]) (by norm_num [Phys.objD])⟩

/-- C8: for a hit position in [0,1], `handlePaddleCollision` assigns the
velocity `(sin bounceAngle, −cos bounceAngle)` scaled by the original
velocity magnitude, with `bounceAngle = (hitPosition − 0.5)·0.7π`; the
velocity magnitude is preserved and the resulting vertical component is
non-positive. -/
theorem handlePaddleCollision_spec (b : Phys.Ball) (p : Phys.Paddle)
    (h0 : 0 ≤ (b.position.x - p.position.x) / p.width)
    (h1 : (b.position.x - p.position.x) / p.width ≤ 1) :
    Phys.handlePaddleCollision b p =
      ⟨Real.sin (((b.position.x - p.position.x) / p.width - 1/2) * Real.pi * (7/10)) *
         Phys.speedOf b.velocity,
       -(Real.cos (((b.position.x - p.position.x) / p.width - 1/2) * Real.pi * (7/10)) *
         Phys.speedOf b.velocity)⟩ ∧
    Phys.speedOf (Phys.handlePaddleCollision b p) = Phys.speedOf b.velocity ∧
    (Phys.handlePaddleCollision b p).y ≤ 0 := by
  set hp := (b.position.x - p.position.x) / p.width with hhp
  set θ := (hp - 1/2) * Real.pi * (7/10) with hθ
  set s := Phys.speedOf b.velocity with hs
  have hs0 : 0 ≤ s := Real.sqrt_nonneg _
  have hθlo : -(Real.pi / 2) ≤ θ := by
    rw [hθ]
    nlinarith [Real.pi_pos, mul_nonneg h0 Real.pi_pos.le]
  have hθhi : θ ≤ Real.pi / 2 := by
    rw [hθ]
    nlinarith [Real.pi_pos, mul_nonneg (by linarith : (0:ℝ) ≤ 1 - hp) Real.pi_pos.le]
  have hcos : 0 ≤ Real.cos θ := Real.cos_nonneg_of_mem_Icc ⟨hθlo, hθhi⟩
  have hform : Phys.handlePaddleCollision b p =
      ⟨Real.sin θ * s, -(Real.cos θ * s)⟩ := rfl
  refine ⟨hform, ?_, ?_⟩
  · rw [hform]
    show Real.sqrt ((Real.sin θ * s) * (Real.sin θ * s) +
      (-(Real.cos θ * s)) * (-(Real.cos θ * s))) = s
    have key : (Real.sin θ * s) * (Real.sin θ * s) +
        (-(Real.cos θ * s)) * (-(Real.cos θ * s)) =
        (Real.sin θ ^ 2 + Real.cos θ ^ 2) * (s * s) := by ring
    rw [key, Real.sin_sq_add_cos_sq, one_mul, Real.sqrt_mul_self hs0]
  · rw [hform]
    show -(Real.cos θ * s) ≤ 0
    have := mul_nonneg hcos hs0
    linarith

/-- Witness for C8 at a concrete ball/paddle pair with hit position 0. -/
theorem handlePaddleCollision_spec_witness :
    (0 ≤ (Phys.ballW.position.x - Phys.padW.position.x) / Phys.padW.width) ∧
    ((Phys.ballW.position.x - Phys.padW.position.x) / Phys.padW.width ≤ 1) ∧
    (Phys.speedOf (Phys.handlePaddleCollision Phys.ballW Phys.padW) =
       Phys.speedOf Phys.ballW.velocity ∧
     (Phys.handlePaddleCollision Phys.ballW Phys.padW).y ≤ 0) :=
  ⟨by norm_num [Phys.ballW, Phys.padW],
   by norm_num [Phys.ballW, Phys.padW],
   ((handlePaddleCollision_spec Phys.ballW Phys.padW
       (by norm_num [Phys.ballW, Phys.padW])
       (by norm_num [Phys.ballW, Phys.padW])).2)⟩

/-- C4 counterexample: at a ball whose center lies inside the brick, the
closest-point vector is zero and `handleBrickCollision` is undefined (the
source divides by a zero magnitude, yielding NaN components), refuting the
claim that it is total there. -/
theorem handleBrickCollision_zero_normal_undefined :
    Phys.handleBrickCollision Phys.ballIn Phys.brickIn (1/2) (1/2) = none := by
  have hn : Phys.brickNormal Phys.ballIn Phys.brickIn = ⟨0, 0⟩ := by
    simp only [Phys.brickNormal, Phys.closestPoint, Phys.ballIn, Phys.brickIn]
    norm_num [min_def, max_def]
  simp only [Phys.handleBrickCollision, hn]
  norm_num

/-- C4 (amended): `handleBrickCollision` produces a well-defined velocity
for every ball/brick pair whose closest-point vector is nonzero; only the
zero-magnitude case (ball center at its own closest point of the
rectangle) is undefined. -/
theorem handleBrickCollision_defined_of_normal_ne_zero (b : Phys.Ball) (k : Phys.GameObj)
    (r1 r2 : ℝ)
    (h : (Phys.brickNormal b k).x ≠ 0 ∨ (Phys.brickNormal b k).y ≠ 0) :
    ∃ v, Phys.handleBrickCollision b k r1 r2 = some v := by
  have hpos : 0 < (Phys.brickNormal b k).x * (Phys.brickNormal b k).x +
      (Phys.brickNormal b k).y * (Phys.brickNormal b k).y := by
    rcases h with h | h
    · nlinarith [mul_self_pos.mpr h, mul_self_nonneg (Phys.brickNormal b k).y]
    · nlinarith [mul_self_pos.mpr h, mul_self_nonneg (Phys.brickNormal b k).x]
  have hmag : Real.sqrt ((Phys.brickNormal b k).x * (Phys.brickNormal b k).x +
      (Phys.brickNormal b k).y * (Phys.brickNormal b k).y) ≠ 0 :=
    ne_of_gt (Real.sqrt_pos.mpr hpos)
  simp only [Phys.handleBrickCollision]
  rw [if_neg hmag]
  exact ⟨_, rfl⟩

/-- Witness for the amended C4 at a ball lying outside the brick. -/
theorem handleBrickCollision_defined_witness :
    ((Phys.brickNormal Phys.ballOut Phys.brickIn).x ≠ 0 ∨
     (Phys.brickNormal Phys.ballOut Phys.brickIn).y ≠ 0) ∧
    ∃ v, Phys.handleBrickCollision Phys.ballOut Phys.brickIn (1/2) (1/2) = some v :=
  ⟨Or.inl (by
     simp only [Phys.brickNormal, Phys.closestPoint, Phys.ballOut, Phys.brickIn]
     norm_num [min_def, max_def]),
   handleBrickCollision_defined_of_normal_ne_zero Phys.ballOut Phys.brickIn (1/2) (1/2)
     (Or.inl (by
       simp only [Phys.brickNormal, Phys.closestPoint, Phys.ballOut, Phys.brickIn]
       norm_num [min_def, max_def]))⟩

/-- C10: the ball cloned by an ExtraBall catch gets a velocity of
Euclidean magnitude exactly 1 — its components are the sine and cosine of
the launch angle, each times a unit sign factor — regardless of the source
ball's velocity. -/
theorem extraBallVelocity_unit_speed (v : Phys.Vec) (player : Side) (angle : ℝ) :
    Phys.speedOf (Phys.extraBallVelocity v player angle) = 1 := by
  have hsign : ∀ x : ℝ, x ≠ 0 → Phys.jsSign x * Phys.jsSign x = 1 := by
    intro x hx
    unfold Phys.jsSign
    rcases lt_trichotomy x 0 with h | h | h
    · rw [if_neg (by linarith), if_pos h]; norm_num
    · exact absurd h hx
    · rw [if_pos h]; norm_num
  have hor1 : Phys.jsOr v.x 1 ≠ 0 := by
    unfold Phys.jsOr
    split_ifs with h
    · norm_num
    · exact h
  have hor2 : Phys.jsOr v.y (if player = Side.human then -1 else 1) ≠ 0 := by
    unfold Phys.jsOr
    split_ifs with h h2
    · norm_num
    · norm_num
    · exact h
  have k1 := hsign _ hor1
  have k2 := hsign _ hor2
  show Real.sqrt
    ((Real.sin angle * Phys.jsSign (Phys.jsOr v.x 1)) *
       (Real.sin angle * Phys.jsSign (Phys.jsOr v.x 1)) +
     (Real.cos angle * Phys.jsSign (Phys.jsOr v.y (if player = Side.human then -1 else 1))) *
       (Real.cos angle * Phys.jsSign (Phys.jsOr v.y (if player = Side.human then -1 else 1)))) = 1
  have key :
      (Real.sin angle * Phys.jsSign (Phys.jsOr v.x 1)) *
        (Real.sin angle * Phys.jsSign (Phys.jsOr v.x 1)) +
      (Real.cos angle * Phys.jsSign (Phys.jsOr v.y (if player = Side.human then -1 else 1))) *
        (Real.cos angle * Phys.jsSign (Phys.jsOr v.y (if player = Side.human then -1 else 1))) =
      Real.sin angle ^ 2 * (Phys.jsSign (Phys.jsOr v.x 1) * Phys.jsSign (Phys.jsOr v.x 1)) +
      Real.cos angle ^ 2 *
        (Phys.jsSign (Phys.jsOr v.y (if player = Side.human then -1 else 1)) *
         Phys.jsSign (Phys.jsOr v.y (if player = Side.human then -1 else 1))) := by
    ring
  rw [key, k1, k2, mul_one, mul_one, Real.sin_sq_add_cos_sq, Real.sqrt_one]

namespace Eng

/-- The side-wall resolution leaves the vertical position unchanged. -/
theorem wallX_position_y (b : Ball) (w : ℚ) : (wallX b w).position.y = b.position.y := by
  unfold wallX
  split_ifs <;> rfl

/-- The side-wall resolution leaves the radius unchanged. -/
theorem wallX_radius (b : Ball) (w : ℚ) : (wallX b w).radius = b.radius := by
  unfold wallX
  split_ifs <;> rfl

/-- After `handleWallCollision`, a ball of positive radius has strictly
positive vertical position: the top wall resets it to the radius, and a
ball that is not at the top wall satisfies `y > radius`. -/
theorem handleWallCollision_y_pos (b : Ball) (w : ℚ) (hr : 0 < b.radius) :
    0 < (handleWallCollision b w).position.y := by
  simp only [handleWallCollision]
  split_ifs with h
  · show 0 < (wallX b w).radius
    rw [wallX_radius]
    exact hr
  · have h1 : (wallX b w).radius = b.radius := wallX_radius b w
    push_neg at h
    rw [h1] at h
    linarith

/-- Integration does not change the radius. -/
theorem updateBallPosition_radius (b : Ball) (dt : ℚ) (go : Bool) :
    (updateBallPosition b dt go).radius = b.radius := rfl

/-- The loss-detection block never changes the AI lives counter when the
incoming ball has positive vertical position (which rules out the
`position.y < 0` branch). -/
theorem lossPhase_aiLives (cfg : GameConfig) (rnd : ℕ → ℚ) (ctx : Ctx) (b : Ball)
    (hy : 0 < b.position.y) :
    ((lossPhase cfg rnd ctx b).2).gs.aiLives = ctx.gs.aiLives := by
  simp only [lossPhase]
  split_ifs <;> first | rfl | linarith

/-- The paddle-collision block never changes the AI lives counter. -/
theorem paddlePhase_aiLives (rnd : ℕ → ℚ) (ctx : Ctx) (b : Ball) :
    ((paddlePhase rnd ctx b).2).gs.aiLives = ctx.gs.aiLives := by
  unfold paddlePhase
  split_ifs <;> rfl

/-- The brick-collision loop never changes the AI lives counter. -/
theorem brickLoop_aiLives (rnd : ℕ → ℚ) :
    ∀ (l : List Brick) (b : Ball) (ctx : Ctx),
      ((brickLoop rnd l b ctx).2.2).gs.aiLives = ctx.gs.aiLives := by
  intro l
  induction l with
  | nil => intro b ctx; rfl
  | cons brick rest ih =>
    intro b ctx
    simp only [brickLoop]
    split_ifs <;> dsimp only <;> rw [ih]

/-- The ball-loop body never changes the AI lives counter for a ball of
positive radius: `handleWallCollision` runs before loss detection and
reflects any ball at the top wall, resetting `position.y` to the radius,
so the AI-side loss branch (`ball.position.y < 0`) is unreachable. -/
theorem stepBall_aiLives (cfg : GameConfig) (rnd : ℕ → ℚ) (dt : ℚ)
    (ctx : Ctx) (b : Ball) (hr : 0 < b.radius) :
    ((stepBall cfg rnd dt ctx b).2).gs.aiLives = ctx.gs.aiLives := by
  simp only [stepBall]
  split_ifs with ha
  · dsimp only
    have hy : 0 < (handleWallCollision
        (updateBallPosition b dt ctx.gs.gameOver) cfg.width).position.y :=
      handleWallCollision_y_pos _ _
        (by rw [updateBallPosition_radius]; exact hr)
    rw [brickLoop_aiLives, paddlePhase_aiLives,
        lossPhase_aiLives cfg rnd ctx _ hy]
  · rfl

/-- Reverting a single expired effect never changes the AI lives counter. -/
theorem revertPowerUp_aiLives (gs : GameState) (pu : ActivePowerUp) :
    (revertPowerUp gs pu).aiLives = gs.aiLives := by
  cases hpt : pu.ptype <;> simp only [revertPowerUp, hpt] <;>
    first | (split_ifs <;> rfl) | rfl

/-- Folding effect reversals never changes the AI lives counter. -/
theorem foldl_revertPowerUp_aiLives :
    ∀ (l : List ActivePowerUp) (gs : GameState),
      (l.foldl revertPowerUp gs).aiLives = gs.aiLives := by
  intro l
  induction l with
  | nil => intro gs; rfl
  | cons p rest ih => intro gs; rw [List.foldl_cons, ih, revertPowerUp_aiLives]

/-- The expiry sweep never changes the AI lives counter. -/
theorem updatePowerUps_aiLives (gs : GameState) (reg : List ActivePowerUp) (nowMs : ℚ) :
    (updatePowerUps gs reg nowMs).1.aiLives = gs.aiLives := by
  simp only [updatePowerUps]
  exact foldl_revertPowerUp_aiLives _ _

/-- Applying a power-up effect never changes the AI lives counter. -/
theorem applyPowerUp_aiLives (gs : GameState) (pu : PowerUp) (pl : Side) (nowMs : ℚ)
    (reg : List ActivePowerUp) (rnd : ℕ → ℚ) (k : ℕ) :
    (applyPowerUp gs pu pl nowMs reg rnd k).1.aiLives = gs.aiLives := by
  cases hpt : pu.ptype <;> simp only [applyPowerUp, hpt] <;>
    first | (split_ifs <;> rfl) | rfl

/-- Processing one falling power-up never changes the AI lives counter. -/
theorem processPowerUp_aiLives (cfg : GameConfig) (rnd : ℕ → ℚ) (nowMs dt : ℚ)
    (ctx : Ctx) (pu : PowerUp) :
    ((processPowerUp cfg rnd nowMs dt ctx pu).2).gs.aiLives = ctx.gs.aiLives := by
  simp only [processPowerUp]
  split_ifs <;> first | rfl | (dsimp only; rw [applyPowerUp_aiLives])

/-- The falling-power-up loop never changes the AI lives counter. -/
theorem processPowerUpList_aiLives (cfg : GameConfig) (rnd : ℕ → ℚ) (nowMs dt : ℚ) :
    ∀ (l : List PowerUp) (ctx : Ctx),
      ((processPowerUpList cfg rnd nowMs dt l ctx).2).gs.aiLives = ctx.gs.aiLives := by
  intro l
  induction l with
  | nil => intro ctx; rfl
  | cons pu rest ih =>
    intro ctx
    simp only [processPowerUpList]
    rw [processPowerUp_aiLives, ih]

/-- Reverting a single expired effect preserves positivity of every ball
radius. -/
theorem revertPowerUp_balls_radius (gs : GameState) (pu : ActivePowerUp)
    (h : ∀ b ∈ gs.balls, 0 < b.radius) :
    ∀ b ∈ (revertPowerUp gs pu).balls, 0 < b.radius := by
  intro b hb
  cases hpt : pu.ptype <;> simp only [revertPowerUp, hpt] at hb
  · split_ifs at hb <;> exact h b hb
  · exact h b hb
  · simp only [List.mem_map] at hb
    obtain ⟨a, ha, rfl⟩ := hb
    split_ifs <;> exact h a ha

/-- Folding effect reversals preserves positivity of every ball radius. -/
theorem foldl_revertPowerUp_balls_radius :
    ∀ (l : List ActivePowerUp) (gs : GameState), (∀ b ∈ gs.balls, 0 < b.radius) →
      ∀ b ∈ (l.foldl revertPowerUp gs).balls, 0 < b.radius := by
  intro l
  induction l with
  | nil => intro gs h; exact h
  | cons p rest ih =>
    intro gs h
    rw [List.foldl_cons]
    exact ih _ (revertPowerUp_balls_radius gs p h)

/-- The expiry sweep preserves positivity of every ball radius. -/
theorem updatePowerUps_balls_radius (gs : GameState) (reg : List ActivePowerUp) (nowMs : ℚ)
    (h : ∀ b ∈ gs.balls, 0 < b.radius) :
    ∀ b ∈ (updatePowerUps gs reg nowMs).1.balls, 0 < b.radius := by
  simp only [updatePowerUps]
  exact foldl_revertPowerUp_balls_radius _ _ h

/-- Applying a power-up effect preserves positivity of every ball radius
(the extra ball clones an existing ball or the radius-8 default). -/
theorem applyPowerUp_balls_radius (gs : GameState) (pu : PowerUp) (pl : Side) (nowMs : ℚ)
    (reg : List ActivePowerUp) (rnd : ℕ → ℚ) (k : ℕ)
    (h : ∀ b ∈ gs.balls, 0 < b.radius) :
    ∀ b ∈ (applyPowerUp gs pu pl nowMs reg rnd k).1.balls, 0 < b.radius := by
  intro b hb
  cases hpt : pu.ptype <;> simp only [applyPowerUp, hpt] at hb
  · split_ifs at hb <;> exact h b hb
  · split_ifs at hb <;>
    first
      | exact h b hb
      | (simp only [List.mem_append, List.mem_singleton] at hb
         rcases hb with hb | hb
         · exact h b hb
         · subst hb
           cases hf : gs.balls.find? (fun x => x.active) with
           | none => simp only [hf, Option.getD]; norm_num
           | some sb =>
             have hm := h sb (List.mem_of_find?_eq_some hf)
             simp only [hf, Option.getD]
             exact hm)
  · simp only [List.mem_map] at hb
    obtain ⟨a, ha, rfl⟩ := hb
    split_ifs <;> exact h a ha

/-- Processing one falling power-up preserves positivity of every ball
radius. -/
theorem processPowerUp_balls_radius (cfg : GameConfig) (rnd : ℕ → ℚ) (nowMs dt : ℚ)
    (ctx : Ctx) (pu : PowerUp) (h : ∀ b ∈ ctx.gs.balls, 0 < b.radius) :
    ∀ b ∈ ((processPowerUp cfg rnd nowMs dt ctx pu).2).gs.balls, 0 < b.radius := by
  simp only [processPowerUp]
  split_ifs <;> first
    | exact h
    | (dsimp only; exact applyPowerUp_balls_radius _ _ _ _ _ _ _ h)

/-- The falling-power-up loop preserves positivity of every ball radius. -/
theorem processPowerUpList_balls_radius (cfg : GameConfig) (rnd : ℕ → ℚ) (nowMs dt : ℚ) :
    ∀ (l : List PowerUp) (ctx : Ctx), (∀ b ∈ ctx.gs.balls, 0 < b.radius) →
      ∀ b ∈ ((processPowerUpList cfg rnd nowMs dt l ctx).2).gs.balls, 0 < b.radius := by
  intro l
  induction l with
  | nil => intro ctx h; exact h
  | cons pu rest ih =>
    intro ctx h
    simp only [processPowerUpList]
    exact processPowerUp_balls_radius _ _ _ _ _ _ (ih _ h)

/-- The ball loop never changes the AI lives counter when every processed
ball has positive radius. -/
theorem processBalls_aiLives (cfg : GameConfig) (rnd : ℕ → ℚ) (dt : ℚ) :
    ∀ (l : List Ball) (ctx : Ctx), (∀ b ∈ l, 0 < b.radius) →
      ((processBalls cfg rnd dt l ctx).2).gs.aiLives = ctx.gs.aiLives := by
  intro l
  induction l with
  | nil => intro ctx h; rfl
  | cons b rest ih =>
    intro ctx h
    simp only [processBalls]
    rw [stepBall_aiLives cfg rnd dt _ b (h b (List.mem_cons_self b rest)),
        ih ctx (fun x hx => h x (List.mem_cons_of_mem b hx))]

end Eng

/-- C1: refuted on the code — a full engine tick can never decrement the
AI lives counter when every ball has positive radius (it is always 8 in
the engine).  `handleWallCollision` runs before loss detection and
reflects any ball at the top wall, resetting `position.y` to the radius,
so the engine's AI-side loss branch (`ball.position.y < 0`) is
unreachable: no AI life is ever lost, no AI life-lost event is ever
emitted, and the life-lost/ai and game-over/human emissions in
gameEngine.ts lines 331-359 are dead code.  (The human-side half of the
claim is implemented as described.) -/
theorem update_never_decrements_aiLives (cfg : Eng.GameConfig) (rnd : ℕ → ℚ) (nowMs : ℚ)
    (ctx : Eng.Ctx) (dt : ℚ) (h : ∀ b ∈ ctx.gs.balls, 0 < b.radius) :
    (Eng.update cfg rnd nowMs ctx dt).gs.aiLives = ctx.gs.aiLives := by
  simp only [Eng.update]
  split_ifs
  all_goals try rfl
  all_goals (dsimp only; rw [Eng.processBalls_aiLives])
  all_goals first
    | exact Eng.processPowerUpList_balls_radius _ _ _ _ _ _
        (Eng.updatePowerUps_balls_radius _ _ _ h)
    | (dsimp only
       try rw [Eng.processPowerUpList_aiLives]
       try dsimp only
       try rw [Eng.updatePowerUps_aiLives])

/-- Witness for C1 at the failing input: with a ball crossing the top edge
at (400, 5) while moving upward, the tick reflects it instead of losing
it, and the AI lives counter is unchanged. -/
theorem update_never_decrements_aiLives_witness :
    (∀ b ∈ Eng.ctxC1.gs.balls, 0 < b.radius) ∧
    (Eng.update Eng.cfgStd Eng.rndHalf 0 Eng.ctxC1 (1/60)).gs.aiLives =
      Eng.ctxC1.gs.aiLives :=
  ⟨by decide,
   update_never_decrements_aiLives Eng.cfgStd Eng.rndHalf 0 Eng.ctxC1 (1/60) (by decide)⟩

namespace Eng

/-- The function `updatePowerUp` always advances the vertical position by
`velocity.y · deltaTime`. -/
theorem updatePowerUp_position_y (pu : PowerUp) (pad : Paddle) (g dt : ℚ) :
    (updatePowerUp pu pad g dt).1.position.y = pu.position.y + pu.velocity.y * dt := by
  simp only [updatePowerUp]
  split_ifs <;> rfl

/-- The function `updatePowerUp` never changes the velocity. -/
theorem updatePowerUp_velocity (pu : PowerUp) (pad : Paddle) (g dt : ℚ) :
    (updatePowerUp pu pad g dt).1.velocity = pu.velocity := by
  simp only [updatePowerUp]
  split_ifs <;> rfl

/-- An uncaught power-up whose advanced position exceeds the `gameHeight`
argument comes out of `updatePowerUp` deactivated. -/
theorem updatePowerUp_not_caught_inactive (pu : PowerUp) (pad : Paddle) (g dt : ℚ)
    (hc : (updatePowerUp pu pad g dt).2 = false)
    (hy : g < pu.position.y + pu.velocity.y * dt) :
    (updatePowerUp pu pad g dt).1.active = false := by
  simp only [updatePowerUp] at hc ⊢
  split_ifs at hc ⊢ <;> first | rfl | exact absurd hy (by assumption)

end Eng

/-- C2: refuted on the code — a falling power-up that is caught by neither
paddle and sits anywhere in the arena (`position.y > 0`, not past the
edge) is removed by the tick, without any effect: the AI-side
`updatePowerUp` call receives `gameHeight = 0` and `−deltaTime`, which
moves the power-up back up by exactly the amount the player-side call
moved it down and then clears its `active` flag because `y > 0`, after
which the engine splices it out. -/
theorem processPowerUp_removes_uncaught (cfg : Eng.GameConfig) (rnd : ℕ → ℚ)
    (nowMs dt : ℚ) (ctx : Eng.Ctx) (pu : Eng.PowerUp)
    (hact : pu.active = true)
    (hy : 0 < pu.position.y)
    (hedge : pu.position.y + pu.velocity.y * dt ≤ cfg.height)
    (hc1 : (Eng.updatePowerUp pu ctx.gs.playerPaddle cfg.height dt).2 = false)
    (hc2 : (Eng.updatePowerUp (Eng.updatePowerUp pu ctx.gs.playerPaddle cfg.height dt).1
              ctx.gs.aiPaddle 0 (-dt)).2 = false) :
    Eng.processPowerUp cfg rnd nowMs dt ctx pu = (none, ctx) := by
  have hy2 : (0:ℚ) < (Eng.updatePowerUp pu ctx.gs.playerPaddle cfg.height dt).1.position.y +
      (Eng.updatePowerUp pu ctx.gs.playerPaddle cfg.height dt).1.velocity.y * (-dt) := by
    rw [Eng.updatePowerUp_position_y, Eng.updatePowerUp_velocity]
    have : pu.position.y + pu.velocity.y * dt + pu.velocity.y * (-dt) = pu.position.y := by ring
    rw [this]
    exact hy
  have hina := Eng.updatePowerUp_not_caught_inactive _ _ _ _ hc2 hy2
  simp only [Eng.processPowerUp, hc1, hc2, hina]
  rfl

/-- Witness for C2 at the failing input: a power-up at (400, 300) falling
at 100/s, with both paddles far away, is removed by the tick while still
in mid-arena and without any effect on the state. -/
theorem processPowerUp_removes_uncaught_witness :
    Eng.puC2.active = true ∧
    (0 < Eng.puC2.position.y) ∧
    (Eng.puC2.position.y + Eng.puC2.velocity.y * (1/60) ≤ Eng.cfgStd.height) ∧
    ((Eng.updatePowerUp Eng.puC2 Eng.ctxC2.gs.playerPaddle Eng.cfgStd.height (1/60)).2 = false) ∧
    ((Eng.updatePowerUp
        (Eng.updatePowerUp Eng.puC2 Eng.ctxC2.gs.playerPaddle Eng.cfgStd.height (1/60)).1
        Eng.ctxC2.gs.aiPaddle 0 (-(1/60))).2 = false) ∧
    Eng.processPowerUp Eng.cfgStd Eng.rndHalf 0 (1/60) Eng.ctxC2 Eng.puC2 = (none, Eng.ctxC2) :=
  have h1 : Eng.puC2.active = true := by decide
  have h2 : 0 < Eng.puC2.position.y := by decide
  have h3 : Eng.puC2.position.y + Eng.puC2.velocity.y * (1/60) ≤ Eng.cfgStd.height := by
    norm_num [Eng.puC2, Eng.cfgStd]
  have h4 : (Eng.updatePowerUp Eng.puC2 Eng.ctxC2.gs.playerPaddle
      Eng.cfgStd.height (1/60)).2 = false := by
    norm_num [Eng.updatePowerUp, Eng.checkCollision, Eng.PowerUp.asBall, Eng.Paddle.obj,
      Eng.puC2, Eng.ctxC2, Eng.gsC2, Eng.gsC6, Eng.cfgStd]
  have h5 : (Eng.updatePowerUp
      (Eng.updatePowerUp Eng.puC2 Eng.ctxC2.gs.playerPaddle Eng.cfgStd.height (1/60)).1
      Eng.ctxC2.gs.aiPaddle 0 (-(1/60))).2 = false := by
    norm_num [Eng.updatePowerUp, Eng.checkCollision, Eng.PowerUp.asBall, Eng.Paddle.obj,
      Eng.puC2, Eng.ctxC2, Eng.gsC2, Eng.gsC6, Eng.cfgStd]
  ⟨h1, h2, h3, h4, h5,
   processPowerUp_removes_uncaught Eng.cfgStd Eng.rndHalf 0 (1/60) Eng.ctxC2 Eng.puC2
     h1 h2 h3 h4 h5⟩

namespace Eng

/-- The rollout of `predictBallLanding` stops immediately once the
simulated ball is at or below the target y-level. -/
theorem simulateBall_done (gw r py : ℚ) (bricks : List Brick) (hard : Bool)
    (fuel : ℕ) (pos vel : Vec) (h : ¬ pos.y < py) :
    simulateBall gw r py bricks hard fuel pos vel = pos := by
  cases fuel with
  | zero => rfl
  | succ n => simp [simulateBall, h]

/-- Folding `closerBall` over any list preserves a non-`none` accumulator,
and produces a non-`none` result from a non-empty list. -/
theorem foldl_closerBall_isSome (y : ℚ) :
    ∀ (l : List Ball) (acc : Option Ball), (acc.isSome = true ∨ l ≠ []) →
      (l.foldl (closerBall y) acc).isSome = true := by
  intro l
  induction l with
  | nil =>
    intro acc h
    rcases h with h | h
    · simpa using h
    · exact absurd rfl h
  | cons b rest ih =>
    intro acc h
    rw [List.foldl_cons]
    apply ih
    left
    cases acc with
    | none => rfl
    | some c =>
      simp only [closerBall]
      split_ifs <;> rfl

end Eng

/-- C3: refuted on the code — catching a SlowBall with two active balls
registers two expiry entries (one per ball, pushed inside the per-ball
loop), and the expiry sweep applies each entry to every active ball, so
after the sweep each ball's speed is `1·0.7·(10/7)·(10/7) = 10/7`, not
the pre-effect value 1: the effect is not reversed exactly once and each
ball is adjusted by an entry it was not the target of. -/
theorem slowBall_effect_not_reverted_exactly :
    ((Eng.applyPowerUp Eng.gsC3 Eng.puSlow Side.human 0 [] Eng.rndHalf 0).2.1 =
      [⟨PowerUpType.slowBall, Side.human, 8000⟩, ⟨PowerUpType.slowBall, Side.human, 8000⟩]) ∧
    ((Eng.updatePowerUps (Eng.applyPowerUp Eng.gsC3 Eng.puSlow Side.human 0 [] Eng.rndHalf 0).1
        (Eng.applyPowerUp Eng.gsC3 Eng.puSlow Side.human 0 [] Eng.rndHalf 0).2.1 9000).1.balls.map
      (fun b => b.speed) = [10/7, 10/7]) ∧
    (Eng.gsC3.balls.map (fun b => b.speed) = [1, 1]) ∧
    ((10:ℚ)/7 ≠ 1) := by
  refine ⟨?_, ?_, ?_, by norm_num⟩
  · norm_num [Eng.applyPowerUp, Eng.gsC3, Eng.gsC6, Eng.ballS1, Eng.ballS2, Eng.puSlow,
      List.filter, List.map]
  · norm_num [Eng.updatePowerUps, Eng.applyPowerUp, Eng.revertPowerUp, Eng.gsC3, Eng.gsC6,
      Eng.ballS1, Eng.ballS2, Eng.puSlow, List.filter, List.foldl, List.map]
  · norm_num [Eng.gsC3, Eng.gsC6, Eng.ballS1, Eng.ballS2, List.map]

set_option maxHeartbeats 4000000 in
set_option maxRecDepth 8000 in
/-- C5: refuted on the code — `reset` replaces only the `GameState`
aggregate; the module-level power-up registry survives.  With an
ExpandPaddle effect from the previous match still registered (expiry
5000 ms), the first tick of the new match (at 6000 ms) shrinks the fresh
player paddle to width 200/3, while a freshly constructed engine (empty
registry) keeps width 100 over the same tick: the post-reset simulation
does not behave like a fresh engine. -/
theorem reset_leaks_powerup_registry :
    ((Eng.update Eng.cfgTiny Eng.rndHalf 6000
        (Eng.resetCtx Eng.cfgTiny Eng.rndHalf Eng.leftoverReg ⟨0, 0⟩) (1/60)).gs.playerPaddle.width
      = 200/3) ∧
    ((Eng.update Eng.cfgTiny Eng.rndHalf 6000
        (Eng.resetCtx Eng.cfgTiny Eng.rndHalf [] ⟨0, 0⟩) (1/60)).gs.playerPaddle.width = 100) ∧
    ((200:ℚ)/3 ≠ 100) := by
  have hinit : Eng.createInitialState Eng.cfgTiny Eng.rndHalf =
      { balls := [⟨⟨400, 550⟩, ⟨0, -300⟩, 8, 16, 16, 1, true⟩,
                  ⟨⟨400, 50⟩, ⟨0, 300⟩, 8, 16, 16, 1, true⟩],
        playerPaddle := ⟨⟨350, 570⟩, 100, 15, 0, 500, true⟩,
        aiPaddle := ⟨⟨350, 15⟩, 100, 15, 0, 500, true⟩,
        bricks := [], powerUps := [],
        playerScore := 0, aiScore := 0, playerLives := 3, aiLives := 3,
        timeRemaining := 120, gameOver := false, paused := false } := by
    norm_num [Eng.createInitialState, Eng.createBricks, Eng.cfgTiny, Eng.rndHalf, List.range_zero]
  refine ⟨?_, ?_, by norm_num⟩ <;>
  · simp only [Eng.resetCtx, hinit]
    norm_num +decide [Eng.update, Eng.updateAI, Eng.updatePowerUps, Eng.processPowerUpList,
      Eng.processPowerUp, Eng.updatePowerUp, Eng.applyPowerUp, Eng.revertPowerUp,
      Eng.checkCollision, Eng.PowerUp.asBall, Eng.Paddle.obj, Eng.Brick.obj, Eng.processBalls,
      Eng.stepBall, Eng.updateBallPosition, Eng.handleWallCollision, Eng.wallX, Eng.isBallLost,
      Eng.lossPhase, Eng.paddlePhase, Eng.brickLoop, Eng.closerBall, Eng.predictBallLanding,
      Eng.simulateBall_done, Eng.difficultySettings, Eng.leftoverReg, Eng.cfgTiny, Eng.rndHalf,
      List.filter, List.foldl, List.any]

set_option maxHeartbeats 2000000 in
/-- C6 counterexample: a tick in which the AI paddle (parked at x = 0)
catches an ExpandPaddle power-up ends with the paddle at x = −25, outside
`[0, arenaWidth − paddleWidth]`: the ExpandPaddle re-centering runs after
the AI movement step and nothing re-clamps the position. -/
theorem tick_ai_paddle_out_of_range :
    ((Eng.update Eng.cfgStd Eng.rndHalf 0 Eng.ctxC6 (1/60)).gs.aiPaddle.position.x = -25) ∧
    ¬ (0 ≤ (Eng.update Eng.cfgStd Eng.rndHalf 0 Eng.ctxC6 (1/60)).gs.aiPaddle.position.x ∧
       (Eng.update Eng.cfgStd Eng.rndHalf 0 Eng.ctxC6 (1/60)).gs.aiPaddle.position.x ≤
         Eng.cfgStd.width - (Eng.update Eng.cfgStd Eng.rndHalf 0 Eng.ctxC6 (1/60)).gs.aiPaddle.width) := by
  have hx : (Eng.update Eng.cfgStd Eng.rndHalf 0 Eng.ctxC6 (1/60)).gs.aiPaddle.position.x = -25 := by
    norm_num +decide [Eng.update, Eng.updateAI, Eng.updatePowerUps, Eng.processPowerUpList,
      Eng.processPowerUp, Eng.updatePowerUp, Eng.applyPowerUp, Eng.checkCollision,
      Eng.PowerUp.asBall, Eng.Paddle.obj, Eng.processBalls, Eng.ctxC6, Eng.gsC6, Eng.puC6,
      Eng.cfgStd, Eng.rndHalf, List.filter, List.foldl, List.map, List.any]
  refine ⟨hx, ?_⟩
  rw [hx]
  intro h
  linarith [h.1]

/-- C6 (amended): after the AI movement step of a tick in which at least
one ball is active, the AI paddle's x-position lies within
`[0, arenaWidth − paddleWidth]` for the paddle's current width (which that
step never changes), for every difficulty tier; the step's final clamp
guarantees this.  The bound need not survive to the end of the tick: a
later ExpandPaddle catch or expiry re-positions the paddle without
re-clamping (see the counterexample). -/
theorem updateAI_clamps_paddle (gs : Eng.GameState) (dt gw : ℚ) (d : Eng.AIDifficulty)
    (ai : Eng.AIState) (nowMs r1 r2 r3 : ℚ)
    (hb : gs.balls.any (fun b => b.active) = true)
    (hw : gs.aiPaddle.width ≤ gw) :
    0 ≤ (Eng.updateAI gs dt gw d ai nowMs r1 r2 r3).1.position.x ∧
    (Eng.updateAI gs dt gw d ai nowMs r1 r2 r3).1.position.x ≤
      gw - (Eng.updateAI gs dt gw d ai nowMs r1 r2 r3).1.width ∧
    (Eng.updateAI gs dt gw d ai nowMs r1 r2 r3).1.width = gs.aiPaddle.width := by
  have hcond : ¬ (gs.balls.length = 0 ∨ gs.balls.any (fun b => b.active) = false) := by
    rintro (h | h)
    · rw [List.length_eq_zero] at h
      rw [h] at hb
      simp at hb
    · rw [hb] at h
      exact absurd h (by simp)
  have hne : gs.balls.filter (fun b => b.active) ≠ [] := by
    obtain ⟨x, hx, hax⟩ := List.any_eq_true.mp hb
    exact List.ne_nil_of_mem (List.mem_filter.mpr ⟨hx, hax⟩)
  have hsome := Eng.foldl_closerBall_isSome gs.aiPaddle.position.y
    (gs.balls.filter (fun b => b.active)) none (Or.inr hne)
  obtain ⟨cb, hcb⟩ := Option.isSome_iff_exists.mp hsome
  simp only [Eng.updateAI]
  rw [if_neg hcond, hcb]
  have h0 : (0:ℚ) ≤ gw - gs.aiPaddle.width := by linarith
  exact ⟨le_max_left _ _, max_le h0 (min_le_left _ _), rfl⟩

/-- Witness for the amended C6 at a state with one active ball. -/
theorem updateAI_clamps_paddle_witness :
    (Eng.gsC1.balls.any (fun b => b.active) = true) ∧
    (Eng.gsC1.aiPaddle.width ≤ 800) ∧
    (0 ≤ (Eng.updateAI Eng.gsC1 (1/60) 800 Eng.AIDifficulty.normal ⟨0, 0⟩ 0
        (1/2) (1/2) (1/2)).1.position.x ∧
     (Eng.updateAI Eng.gsC1 (1/60) 800 Eng.AIDifficulty.normal ⟨0, 0⟩ 0
        (1/2) (1/2) (1/2)).1.position.x ≤
       800 - (Eng.updateAI Eng.gsC1 (1/60) 800 Eng.AIDifficulty.normal ⟨0, 0⟩ 0
        (1/2) (1/2) (1/2)).1.width ∧
     (Eng.updateAI Eng.gsC1 (1/60) 800 Eng.AIDifficulty.normal ⟨0, 0⟩ 0
        (1/2) (1/2) (1/2)).1.width = Eng.gsC1.aiPaddle.width) :=
  ⟨by decide, by decide,
   updateAI_clamps_paddle Eng.gsC1 (1/60) 800 Eng.AIDifficulty.normal ⟨0, 0⟩ 0
     (1/2) (1/2) (1/2) (by decide) (by decide)⟩

/-- C7: on the tick in which the clock reaches zero, `update` sets
`gameOver`, clamps `timeRemaining` to zero, and emits exactly one
game-over event whose winner is `human` if `playerScore > aiScore`, `ai`
if `playerScore < aiScore`, and `tie` otherwise. -/
theorem update_timeout_game_over (cfg : Eng.GameConfig) (rnd : ℕ → ℚ) (nowMs : ℚ)
    (ctx : Eng.Ctx) (dt : ℚ)
    (hlp : 0 < ctx.gs.playerLives) (hla : 0 < ctx.gs.aiLives)
    (ht : ctx.gs.timeRemaining - dt ≤ 0) :
    (Eng.update cfg rnd nowMs ctx dt).gs.gameOver = true ∧
    (Eng.update cfg rnd nowMs ctx dt).gs.timeRemaining = 0 ∧
    (Eng.update cfg rnd nowMs ctx dt).events = ctx.events ++
      [GameEvent.game_over (if ctx.gs.aiScore < ctx.gs.playerScore then Winner.human
                            else if ctx.gs.playerScore < ctx.gs.aiScore then Winner.ai
                            else Winner.tie)] := by
  simp only [Eng.update]
  rw [if_pos ht]
  exact ⟨rfl, rfl, rfl⟩

/-- Witness for C7: at `timeRemaining = 1/100`, a tick of 1/60 s with both
lives positive finishes the match with winner `human` (score 50 : 30). -/
theorem update_timeout_game_over_witness :
    (0 < Eng.ctxC7.gs.playerLives) ∧ (0 < Eng.ctxC7.gs.aiLives) ∧
    (Eng.ctxC7.gs.timeRemaining - 1/60 ≤ 0) ∧
    ((Eng.update Eng.cfgStd Eng.rndHalf 0 Eng.ctxC7 (1/60)).gs.gameOver = true ∧
     (Eng.update Eng.cfgStd Eng.rndHalf 0 Eng.ctxC7 (1/60)).gs.timeRemaining = 0 ∧
     (Eng.update Eng.cfgStd Eng.rndHalf 0 Eng.ctxC7 (1/60)).events = Eng.ctxC7.events ++
       [GameEvent.game_over (if Eng.ctxC7.gs.aiScore < Eng.ctxC7.gs.playerScore then Winner.human
                             else if Eng.ctxC7.gs.playerScore < Eng.ctxC7.gs.aiScore then Winner.ai
                             else Winner.tie)]) :=
  have h3 : Eng.ctxC7.gs.timeRemaining - 1/60 ≤ 0 := by
    norm_num [Eng.ctxC7, Eng.gsC7, Eng.gsC1, Eng.gsC2, Eng.gsC6]
  ⟨by decide, by decide, h3,
   update_timeout_game_over Eng.cfgStd Eng.rndHalf 0 Eng.ctxC7 (1/60)
     (by decide) (by decide) h3⟩
